import Mathlib

/-!
Verification of the keyword-dictionary text classifier in `streamlit_app.py`.

The core under specification is two pure functions:

* `compile_patterns` (source lines 66-78): for each label and each keyword
  term, build a case-insensitive regex.  A term containing a literal space
  character is compiled as a plain escaped substring pattern; any other term
  is compiled with word-boundary anchors on both sides.
* `classify_text` (source lines 81-86): given one text value and the compiled
  dictionary, return the comma-joined labels whose pattern list has at least
  one pattern matching somewhere in the text; a missing value classifies
  as the empty string.

Because every compiled regex is `re.escape` of a literal term, optionally
wrapped in word-boundary anchors, regex search is modelled exactly as:
an occurrence of the (lowercased) term at some position of the (lowercased)
text, with boundary conditions at both ends when word-bounded.  A word
boundary at position `i` holds when exactly one of the character before and
the character at `i` is a word character (alphanumeric or underscore), which
is the semantics of the regex anchor between literal characters.  Python
values reaching these functions from the loosely typed surrounding layer are
modelled by `PyScalar`; the exceptions Python raises are modelled by `PyErr`.
-/

/-- Dynamically typed scalar values the surrounding tabular layer can pass:
a missing value (None or NaN, the things `pd.isna` recognises), a string, or
a non-string scalar such as an integer. -/
inductive PyScalar where
  | pynull : PyScalar
  | pystr : String → PyScalar
  | pyint : Int → PyScalar
deriving DecidableEq

/-- Errors raised by the Python runtime while the two core functions run.
`typeError` is the unstructured `TypeError` the interpreter raises (its
message names only the offending value type).  `compileError` is the
structured compile-time error described by the specification, carrying the
offending label; it exists here only so the specification claim about it can
be stated — the source never constructs such a value. -/
inductive PyErr where
  | typeError : String → PyErr
  | compileError : String → String → PyErr
deriving DecidableEq

/-- A compiled regex from `compile_patterns`.  Every pattern the source
builds is `re.escape` of a term, so it is semantically a literal: `term` is
that literal and `wordBounded` records whether the source wrapped it in
word-boundary anchors on both sides (the branch taken when the term contains
no literal space character).  All patterns carry `re.I`. -/
structure Pattern where
  term : String
  wordBounded : Bool
deriving DecidableEq

/-- Model of `pd.isna` on the scalars that can reach `classify_text`. -/
def pd_isna : PyScalar → Bool
  | PyScalar.pynull => true
  | _ => false

/-- Model of one step of the compile loop body (source lines 72-76): Python
evaluates the membership test of a space character in the term, which for a
non-string term raises `TypeError: argument of type ... is not iterable`;
for a string term it selects the plain-substring pattern when a literal
space occurs in the term and the word-bounded pattern otherwise. -/
def compileTerm : PyScalar → Except PyErr Pattern
  | PyScalar.pystr s => Except.ok ⟨s, !(s.data.any (fun c => c == ' '))⟩
  | PyScalar.pyint _ => Except.error (PyErr.typeError "argument of type int is not iterable")
  | PyScalar.pynull => Except.error (PyErr.typeError "argument of type NoneType is not iterable")

/-- Model of the inner loop of `compile_patterns` over one vocabulary list;
the first raising term aborts the whole compilation, as in Python. -/
def compileVocab : List PyScalar → Except PyErr (List Pattern)
  | [] => Except.ok []
  | t :: ts =>
    match compileTerm t with
    | Except.error e => Except.error e
    | Except.ok p =>
      match compileVocab ts with
      | Except.error e => Except.error e
      | Except.ok ps => Except.ok (p :: ps)

/-- Model of `compile_patterns` (source lines 66-78): label insertion order
of the Python dict is modelled by the list order, and each label is mapped
to the list of patterns compiled from its vocabulary in order. -/
def compile_patterns : List (String × List PyScalar) → Except PyErr (List (String × List Pattern))
  | [] => Except.ok []
  | (lbl, vocab) :: rest =>
    match compileVocab vocab with
    | Except.error e => Except.error e
    | Except.ok ps =>
      match compile_patterns rest with
      | Except.error e => Except.error e
      | Except.ok out => Except.ok ((lbl, ps) :: out)

/-- Word character in the regex sense of the word-boundary anchor:
alphanumeric or underscore. -/
def isWordChar (c : Char) : Bool := c.isAlphanum || c == '_'

/-- Case folding of a string into its character list, modelling `re.I`
matching by comparing lowercased text with lowercased pattern. -/
def lowerData (s : String) : List Char := s.data.map Char.toLower

/-- Whether the character at position `i` of the text is a word character;
positions outside the text count as non-word, as regex boundaries treat the
ends of the subject string. -/
def wordAt (txt : List Char) (i : Nat) : Bool := isWordChar (txt.getD i ' ')

/-- Word boundary at position `i`: exactly one of the character before `i`
and the character at `i` is a word character. -/
def boundaryAt (txt : List Char) (i : Nat) : Bool :=
  ((decide (0 < i)) && wordAt txt (i - 1)) != wordAt txt i

/-- Match of one compiled pattern at one position of the lowercased text:
the literal occurs there, and when the pattern is word-bounded there is a
word boundary immediately before and immediately after the occurrence. -/
def patMatchAt (p : Pattern) (txt : List Char) (i : Nat) : Bool :=
  if p.wordBounded then
    boundaryAt txt i
      && ((lowerData p.term).isPrefixOf (txt.drop i)
      && boundaryAt txt (i + (lowerData p.term).length))
  else
    (lowerData p.term).isPrefixOf (txt.drop i)

/-- Model of `p.search(text)` for the patterns the source compiles: try
every position of the text, the position one past the end included, since a
zero-width pattern can match there. -/
def searchPattern (p : Pattern) (text : String) : Bool :=
  (List.range ((lowerData text).length + 1)).any (fun i => patMatchAt p (lowerData text) i)

/-- Model of `classify_text` (source lines 81-86).  A missing value returns
the empty string before any pattern is consulted.  A string value is
searched by every pattern; the labels whose pattern list has a hit are
joined with commas in compiled order.  A non-missing non-string value is
handed directly to `p.search`, which raises `TypeError` as soon as one
pattern is evaluated — so it raises exactly when some label has a non-empty
pattern list. -/
def classify_text (text : PyScalar) (compiled : List (String × List Pattern)) :
    Except PyErr String :=
  match text with
  | PyScalar.pynull => Except.ok ""
  | PyScalar.pystr s =>
    Except.ok (String.intercalate ","
      ((compiled.filter (fun lp => lp.2.any (fun p => searchPattern p s))).map Prod.fst))
  | PyScalar.pyint _ =>
    if compiled.any (fun lp => !lp.2.isEmpty) then
      Except.error (PyErr.typeError "expected string or bytes-like object")
    else
      Except.ok ""

/-- Specification-side description of the hit labels for one text: the
labels, in compiled order, whose pattern list contains at least one pattern
matching the text. -/
def hitLabels (text : String) (compiled : List (String × List Pattern)) : List String :=
  (compiled.filter (fun lp => lp.2.any (fun p => searchPattern p text))).map Prod.fst

/-- Recogniser for the structured compile error the specification
describes; used to state that the code never produces one. -/
def isCompileErr : Except PyErr (List (String × List Pattern)) → Bool
  | Except.error (PyErr.compileError _ _) => true
  | _ => false

/-- Recogniser for an unstructured `TypeError` outcome of compilation. -/
def isTypeErr : Except PyErr (List (String × List Pattern)) → Bool
  | Except.error (PyErr.typeError _) => true
  | _ => false

/-- Recogniser for a successful classification outcome. -/
def isOkE : Except PyErr String → Bool
  | Except.ok _ => true
  | _ => false

/-- C1: compiling the single-token keyword dictionary with label vip and
keyword vip anchors the match at word boundaries on both sides: the text
envious classifies to the empty string and the text my vip pass classifies
to vip. -/
theorem C1_word_boundary :
    (compile_patterns [("vip", [PyScalar.pystr "vip"])]).bind
        (fun c => classify_text (PyScalar.pystr "envious") c) = Except.ok ""
    ∧ (compile_patterns [("vip", [PyScalar.pystr "vip"])]).bind
        (fun c => classify_text (PyScalar.pystr "my vip pass") c) = Except.ok "vip" :=
  ⟨rfl, rfl⟩

/-- C2: a multi-word keyword is a literal substring matcher with no
boundary anchoring: with label urgency and keyword act now, the text
please act now!! classifies to urgency and the text actnow classifies to
the empty string. -/
theorem C2_phrase_substring :
    (compile_patterns [("urgency", [PyScalar.pystr "act now"])]).bind
        (fun c => classify_text (PyScalar.pystr "please act now!!") c) = Except.ok "urgency"
    ∧ (compile_patterns [("urgency", [PyScalar.pystr "act now"])]).bind
        (fun c => classify_text (PyScalar.pystr "actnow") c) = Except.ok "" :=
  ⟨rfl, rfl⟩

/-- C9: matching is case-insensitive: with label x and keyword Hurry, the
text please HURRY up classifies to x. -/
theorem C9_case_insensitive :
    (compile_patterns [("x", [PyScalar.pystr "Hurry"])]).bind
        (fun c => classify_text (PyScalar.pystr "please HURRY up") c) = Except.ok "x" :=
  rfl

/-- C4: for every compiled dictionary, classifying a missing (null or NaN)
value returns the empty string immediately and raises nothing. -/
theorem C4_null_is_empty (compiled : List (String × List Pattern)) :
    classify_text PyScalar.pynull compiled = Except.ok "" :=
  rfl

/-- C3: for every text and every compiled dictionary the classification of
a present string is exactly the comma-join of the hit labels in compiled
label order (the join inserts nothing but single commas, so there is no
surrounding whitespace and the join of no labels is the empty string), and
on the two-label dictionary a and b with keywords now and today the text
order now, today only classifies to a,b. -/
theorem C3_comma_join (text : String) (compiled : List (String × List Pattern)) :
    classify_text (PyScalar.pystr text) compiled
        = Except.ok (String.intercalate "," (hitLabels text compiled))
    ∧ String.intercalate "," ([] : List String) = ""
    ∧ (compile_patterns [("a", [PyScalar.pystr "now"]), ("b", [PyScalar.pystr "today"])]).bind
        (fun c => classify_text (PyScalar.pystr "order now, today only") c) = Except.ok "a,b" :=
  ⟨rfl, rfl, rfl⟩

/-- C5 fails as stated: the compiler tests only for a literal space, not
for arbitrary whitespace.  The term consisting of a, a tab and b contains a
whitespace character, yet it is compiled word-bounded (not as a substring
matcher), and consequently the text xa-tab-b, which contains the term as a
substring, classifies to the empty string. -/
theorem C5_counterexample :
    ("a\tb".data.any Char.isWhitespace = true)
    ∧ compile_patterns [("k", [PyScalar.pystr "a\tb"])]
        = Except.ok [("k", [(⟨"a\tb", true⟩ : Pattern)])]
    ∧ (compile_patterns [("k", [PyScalar.pystr "a\tb"])]).bind
        (fun c => classify_text (PyScalar.pystr "xa\tb") c) = Except.ok "" :=
  ⟨by decide, rfl, rfl⟩

/-- C5 amended: the matcher kind is decided by the presence of a literal
space character in the term: a term with a space compiles as a plain
substring matcher, a term without a space (even one containing a tab or a
newline) compiles word-bounded. -/
theorem C5_amended (lbl : String) (s : String) :
    compile_patterns [(lbl, [PyScalar.pystr s])]
      = Except.ok [(lbl, [(⟨s, !(s.data.any (fun c => c == ' '))⟩ : Pattern)])] :=
  rfl

/-- C7 fails as stated: an empty keyword is not a harmless no-op.  It
compiles word-bounded, giving the doubled boundary anchor pattern, which
matches any text containing a word character: with label x and the empty
keyword as the only vocabulary entry, the text hello classifies to x. -/
theorem C7_counterexample :
    (compile_patterns [("x", [PyScalar.pystr ""])]).bind
        (fun c => classify_text (PyScalar.pystr "hello") c) = Except.ok "x" :=
  rfl

/-- C8 fails as stated: the classifier performs no string coercion.  A
present non-string scalar is handed to pattern search directly, which
raises a TypeError whenever the compiled dictionary has any pattern: the
value 5 against the dictionary with label x and keyword hi raises instead
of classifying. -/
theorem C8_counterexample :
    (compile_patterns [("x", [PyScalar.pystr "hi"])]).bind
        (fun c => classify_text (PyScalar.pyint 5) c)
      = Except.error (PyErr.typeError "expected string or bytes-like object") :=
  rfl

/-- C6 fails as stated: a vocabulary containing a non-string element makes
compilation raise the unstructured interpreter TypeError, whose message
names only the value type; no structured compile error naming the offending
label is ever produced. -/
theorem C6_counterexample :
    compile_patterns [("bad", [PyScalar.pyint 5])]
      = Except.error (PyErr.typeError "argument of type int is not iterable")
    ∧ isCompileErr (compile_patterns [("bad", [PyScalar.pyint 5])]) = false :=
  ⟨rfl, rfl⟩

theorem compileTerm_err_shape (t : PyScalar) (e : PyErr)
    (h : compileTerm t = Except.error e) : ∃ m, e = PyErr.typeError m := by
  cases t with
  | pystr s => exact Except.noConfusion h
  | pyint n => exact ⟨_, (Except.error.inj h).symm⟩
  | pynull => exact ⟨_, (Except.error.inj h).symm⟩

theorem compileVocab_err_shape (vocab : List PyScalar) (e : PyErr)
    (h : compileVocab vocab = Except.error e) : ∃ m, e = PyErr.typeError m := by
  induction vocab with
  | nil => exact Except.noConfusion h
  | cons t ts ih =>
    cases ht : compileTerm t with
    | error e1 =>
      simp only [compileVocab, ht] at h
      obtain ⟨m, hm⟩ := compileTerm_err_shape t e1 ht
      exact ⟨m, by rw [← Except.error.inj h]; exact hm⟩
    | ok p =>
      cases hts : compileVocab ts with
      | error e2 =>
        simp only [compileVocab, ht, hts] at h
        exact ih (by rw [hts, h])
      | ok ps => simp [compileVocab, ht, hts] at h

theorem compileVocab_err_of_nonstr (vocab : List PyScalar) (t : PyScalar)
    (ht : t ∈ vocab) (hns : ∀ s, t ≠ PyScalar.pystr s) :
    ∃ e, compileVocab vocab = Except.error e := by
  induction vocab with
  | nil => cases ht
  | cons v vs ih =>
    cases hv : compileTerm v with
    | error e1 => exact ⟨e1, by simp [compileVocab, hv]⟩
    | ok p =>
      rcases List.mem_cons.mp ht with h1 | h1
      · subst h1
        cases t with
        | pystr s => exact absurd rfl (hns s)
        | pyint n => exact Except.noConfusion hv
        | pynull => exact Except.noConfusion hv
      · obtain ⟨e2, he2⟩ := ih h1
        exact ⟨e2, by simp [compileVocab, hv, he2]⟩

theorem compile_patterns_err_shape (dicts : List (String × List PyScalar)) (e : PyErr)
    (h : compile_patterns dicts = Except.error e) : ∃ m, e = PyErr.typeError m := by
  induction dicts with
  | nil => exact Except.noConfusion h
  | cons d rest ih =>
    obtain ⟨l, v⟩ := d
    cases hv : compileVocab v with
    | error e1 =>
      simp only [compile_patterns, hv] at h
      obtain ⟨m, hm⟩ := compileVocab_err_shape v e1 hv
      exact ⟨m, by rw [← Except.error.inj h]; exact hm⟩
    | ok ps =>
      cases hrest : compile_patterns rest with
      | error e2 =>
        simp only [compile_patterns, hv, hrest] at h
        exact ih (by rw [hrest, h])
      | ok out => simp [compile_patterns, hv, hrest] at h

theorem compile_patterns_err_of_nonstr (dicts : List (String × List PyScalar))
    (lbl : String) (vocab : List PyScalar) (t : PyScalar)
    (hmem : (lbl, vocab) ∈ dicts) (ht : t ∈ vocab) (hns : ∀ s, t ≠ PyScalar.pystr s) :
    ∃ e, compile_patterns dicts = Except.error e := by
  induction dicts with
  | nil => cases hmem
  | cons d rest ih =>
    obtain ⟨l, v⟩ := d
    cases hv : compileVocab v with
    | error e1 => exact ⟨e1, by simp [compile_patterns, hv]⟩
    | ok ps =>
      rcases List.mem_cons.mp hmem with h1 | h1
      · injection h1 with h1a h1b
        subst h1a
        subst h1b
        obtain ⟨e0, he0⟩ := compileVocab_err_of_nonstr vocab t ht hns
        rw [he0] at hv
        exact Except.noConfusion hv
      · obtain ⟨e2, he2⟩ := ih h1
        exact ⟨e2, by simp [compile_patterns, hv, he2]⟩

/-- C6 amended: a vocabulary containing a non-string element makes
compilation fail at compile time for the whole dictionary, but the failure
is the unstructured interpreter TypeError; it is never the structured
compile error naming the offending label that the specification
describes. -/
theorem C6_amended (dicts : List (String × List PyScalar)) (lbl : String)
    (vocab : List PyScalar) (t : PyScalar)
    (hmem : (lbl, vocab) ∈ dicts) (ht : t ∈ vocab) (hns : ∀ s, t ≠ PyScalar.pystr s) :
    isTypeErr (compile_patterns dicts) = true
    ∧ isCompileErr (compile_patterns dicts) = false := by
  obtain ⟨e, he⟩ := compile_patterns_err_of_nonstr dicts lbl vocab t hmem ht hns
  obtain ⟨m, hm⟩ := compile_patterns_err_shape dicts e he
  subst hm
  rw [he]
  exact ⟨rfl, rfl⟩

theorem C6_amended_witness :
    isTypeErr (compile_patterns [("bad", [PyScalar.pyint 5])]) = true
    ∧ isCompileErr (compile_patterns [("bad", [PyScalar.pyint 5])]) = false :=
  C6_amended [("bad", [PyScalar.pyint 5])] "bad" [PyScalar.pyint 5] (PyScalar.pyint 5)
    (List.mem_singleton.mpr rfl) (List.mem_singleton.mpr rfl)
    (fun _ h => PyScalar.noConfusion h)

/-- C8 amended: the classifier performs no coercion of present values.  A
present string never raises, but a present non-string scalar raises the
interpreter TypeError as soon as the compiled dictionary contains any
pattern; the string coercion the specification attributes to the classifier
is done by the surrounding layer before the classifier is called. -/
theorem C8_amended (s : String) (n : Int) (compiled : List (String × List Pattern))
    (h : compiled.any (fun lp => !lp.2.isEmpty) = true) :
    classify_text (PyScalar.pyint n) compiled
      = Except.error (PyErr.typeError "expected string or bytes-like object")
    ∧ isOkE (classify_text (PyScalar.pystr s) compiled) = true := by
  constructor
  · simp [classify_text, h]
  · rfl

theorem C8_amended_witness :
    classify_text (PyScalar.pyint 5) [("x", [(⟨"hi", true⟩ : Pattern)])]
      = Except.error (PyErr.typeError "expected string or bytes-like object")
    ∧ isOkE (classify_text (PyScalar.pystr "abc") [("x", [(⟨"hi", true⟩ : Pattern)])]) = true :=
  C8_amended "abc" 5 [("x", [(⟨"hi", true⟩ : Pattern)])] rfl

theorem wordAt_nil (i : Nat) : wordAt [] i = false := by
  rw [wordAt, List.getD_nil]
  rfl

theorem boundaryAt_nil (i : Nat) : boundaryAt [] i = false := by
  rw [boundaryAt, wordAt_nil, wordAt_nil]
  simp

theorem wordAt_lt_length (txt : List Char) (j : Nat) (h : wordAt txt j = true) :
    j < txt.length := by
  by_contra hn
  push_neg at hn
  rw [wordAt, List.getD_eq_default txt ' ' hn] at h
  exact absurd h (by decide)

theorem wordAt_any (txt : List Char) (j : Nat) (h : wordAt txt j = true) :
    txt.any isWordChar = true := by
  have hj := wordAt_lt_length txt j h
  rw [wordAt, List.getD_eq_getElem txt ' ' hj] at h
  exact List.any_eq_true.mpr ⟨txt[j], List.getElem_mem hj, h⟩

theorem boundaryAt_any (txt : List Char) (i : Nat) (h : boundaryAt txt i = true) :
    txt.any isWordChar = true := by
  rw [boundaryAt] at h
  cases hw : wordAt txt i with
  | true => exact wordAt_any txt i hw
  | false =>
    rw [hw] at h
    cases hp : wordAt txt (i - 1) with
    | true => exact wordAt_any txt (i - 1) hp
    | false => rw [hp] at h; simp at h

theorem any_boundary (txt : List Char) (h : txt.any isWordChar = true) :
    ∃ i, i < txt.length + 1 ∧ boundaryAt txt i = true := by
  obtain ⟨c, hc, hw⟩ := List.any_eq_true.mp h
  obtain ⟨j, hj, hcj⟩ := List.mem_iff_getElem.mp hc
  have hwj : wordAt txt j = true := by
    rw [wordAt, List.getD_eq_getElem txt ' ' hj, hcj]
    exact hw
  have hex : ∃ k, wordAt txt k = true := ⟨j, hwj⟩
  refine ⟨Nat.find hex, ?_, ?_⟩
  · exact Nat.lt_succ_of_lt (wordAt_lt_length txt (Nat.find hex) (Nat.find_spec hex))
  · rw [boundaryAt, Nat.find_spec hex]
    cases hz : decide (0 < Nat.find hex) with
    | false => simp
    | true =>
      have hpos : 0 < Nat.find hex := of_decide_eq_true hz
      have hmin := Nat.find_min hex (Nat.sub_lt hpos Nat.one_pos)
      rw [Bool.not_eq_true] at hmin
      rw [hmin]
      simp

theorem range_any_boundary (txt : List Char) :
    (List.range (txt.length + 1)).any (fun i => boundaryAt txt i) = txt.any isWordChar := by
  apply Bool.eq_iff_iff.mpr
  constructor
  · intro h
    obtain ⟨i, _, hb⟩ := List.any_eq_true.mp h
    exact boundaryAt_any txt i hb
  · intro h
    obtain ⟨i, hi, hb⟩ := any_boundary txt h
    exact List.any_eq_true.mpr ⟨i, List.mem_range.mpr hi, hb⟩

theorem search_empty_word (t : String) :
    searchPattern (⟨"", true⟩ : Pattern) t = (lowerData t).any isWordChar := by
  have hpre : ∀ (l : List Char), ([] : List Char).isPrefixOf l = true := by
    intro l
    cases l <;> rfl
  have hred : ∀ i, patMatchAt (⟨"", true⟩ : Pattern) (lowerData t) i
      = boundaryAt (lowerData t) i := by
    intro i
    show (boundaryAt (lowerData t) i
        && (([] : List Char).isPrefixOf ((lowerData t).drop i)
        && boundaryAt (lowerData t) i)) = boundaryAt (lowerData t) i
    rw [hpre ((lowerData t).drop i)]
    cases boundaryAt (lowerData t) i <;> rfl
  rw [searchPattern]
  simp only [hred]
  exact range_any_boundary (lowerData t)

/-- C7 amended: an empty keyword compiles to the word-bounded pattern with
an empty literal (the doubled boundary anchor), which matches exactly the
texts containing at least one word character (alphanumeric or underscore).
So the empty keyword makes its label appear on every such text, and only
texts free of word characters classify to the empty string under it. -/
theorem C7_amended (t : String) :
    (compile_patterns [("x", [PyScalar.pystr ""])]).bind
        (fun c => classify_text (PyScalar.pystr t) c)
      = Except.ok (if (lowerData t).any isWordChar then "x" else "") := by
  have hc : compile_patterns [("x", [PyScalar.pystr ""])]
      = Except.ok [("x", [(⟨"", true⟩ : Pattern)])] := rfl
  rw [hc]
  show classify_text (PyScalar.pystr t) [("x", [(⟨"", true⟩ : Pattern)])]
      = Except.ok (if (lowerData t).any isWordChar then "x" else "")
  rw [← search_empty_word t]
  cases hs : searchPattern (⟨"", true⟩ : Pattern) t with
  | true =>
    simp [classify_text, List.filter, hs]
    try rfl
  | false =>
    simp [classify_text, List.filter, hs]
    try rfl

theorem compileTerm_invariant (t : PyScalar) (p : Pattern)
    (h : compileTerm t = Except.ok p) :
    p.wordBounded = !(p.term.data.any (fun c => c == ' ')) := by
  cases t with
  | pystr s =>
    have hp := Except.ok.inj h
    rw [← hp]
  | pyint n => exact Except.noConfusion h
  | pynull => exact Except.noConfusion h

theorem compileVocab_invariant (vocab : List PyScalar) (ps : List Pattern) (p : Pattern)
    (h : compileVocab vocab = Except.ok ps) (hp : p ∈ ps) :
    p.wordBounded = !(p.term.data.any (fun c => c == ' ')) := by
  induction vocab generalizing ps with
  | nil =>
    rw [show ps = [] from (Except.ok.inj h).symm] at hp
    cases hp
  | cons v vs ih =>
    cases hv : compileTerm v with
    | error e => simp [compileVocab, hv] at h
    | ok q =>
      cases hvs : compileVocab vs with
      | error e => simp [compileVocab, hv, hvs] at h
      | ok qs =>
        simp only [compileVocab, hv, hvs] at h
        have hps := Except.ok.inj h
        rw [← hps] at hp
        rcases List.mem_cons.mp hp with h1 | h1
        · rw [h1]
          exact compileTerm_invariant v q hv
        · exact ih qs hvs h1

theorem compile_patterns_invariant (dicts : List (String × List PyScalar))
    (out : List (String × List Pattern)) (lbl : String) (ps : List Pattern) (p : Pattern)
    (h : compile_patterns dicts = Except.ok out) (hm : (lbl, ps) ∈ out) (hp : p ∈ ps) :
    p.wordBounded = !(p.term.data.any (fun c => c == ' ')) := by
  induction dicts generalizing out with
  | nil =>
    rw [show out = [] from (Except.ok.inj h).symm] at hm
    cases hm
  | cons d rest ih =>
    obtain ⟨l, v⟩ := d
    cases hv : compileVocab v with
    | error e => simp [compile_patterns, hv] at h
    | ok qs =>
      cases hrest : compile_patterns rest with
      | error e => simp [compile_patterns, hv, hrest] at h
      | ok out2 =>
        simp only [compile_patterns, hv, hrest] at h
        have hout := Except.ok.inj h
        rw [← hout] at hm
        rcases List.mem_cons.mp hm with h1 | h1
        · injection h1 with h1a h1b
          rw [h1b] at hp
          exact compileVocab_invariant v qs p hv hp
        · exact ih out2 hrest h1

theorem searchPattern_empty_text (p : Pattern)
    (hw : p.wordBounded = !(p.term.data.any (fun c => c == ' '))) :
    searchPattern p "" = false := by
  rw [searchPattern]
  apply List.any_eq_false.mpr
  intro i _
  have hnil : lowerData "" = ([] : List Char) := rfl
  rw [Bool.not_eq_true]
  rw [hnil]
  cases hb : p.wordBounded with
  | true =>
    simp only [patMatchAt, hb, if_true]
    rw [boundaryAt_nil]
    rfl
  | false =>
    simp only [patMatchAt, hb, if_false]
    have hsp : p.term.data.any (fun c => c == ' ') = true := by
      rw [hb] at hw
      cases hx : p.term.data.any (fun c => c == ' ') with
      | true => rfl
      | false => rw [hx] at hw; exact absurd hw (by decide)
    obtain ⟨c, hc, _⟩ := List.any_eq_true.mp hsp
    rw [List.drop_nil]
    cases hd : p.term.data with
    | nil => rw [hd] at hc; cases hc
    | cons a as =>
      have hld : lowerData p.term = Char.toLower a :: as.map Char.toLower := by
        rw [lowerData, hd]
        rfl
      rw [hld]
      rfl

/-- C10: classifying the empty text against any successfully compiled
dictionary yields the empty string: no compiled pattern matches the empty
text, because an empty term compiles word-bounded and the empty text has no
word boundary, while a substring pattern always carries a non-empty literal
(it contains a space). -/
theorem C10_empty_text (dicts : List (String × List PyScalar))
    (out : List (String × List Pattern))
    (h : compile_patterns dicts = Except.ok out) :
    classify_text (PyScalar.pystr "") out = Except.ok "" := by
  simp only [classify_text]
  have hfil : out.filter (fun lp => lp.2.any (fun p => searchPattern p "")) = [] := by
    apply List.filter_eq_nil_iff.mpr
    intro lp hlp
    obtain ⟨lbl, ps⟩ := lp
    rw [Bool.not_eq_true]
    apply List.any_eq_false.mpr
    intro p hp
    rw [Bool.not_eq_true]
    exact searchPattern_empty_text p
      (compile_patterns_invariant dicts out lbl ps p h hlp hp)
  rw [hfil]
  rfl

theorem C10_empty_text_witness :
    compile_patterns [("x", [PyScalar.pystr "", PyScalar.pystr "a b"])]
      = Except.ok [("x", [(⟨"", true⟩ : Pattern), (⟨"a b", false⟩ : Pattern)])]
    ∧ classify_text (PyScalar.pystr "")
        [("x", [(⟨"", true⟩ : Pattern), (⟨"a b", false⟩ : Pattern)])] = Except.ok "" :=
  ⟨rfl, C10_empty_text [("x", [PyScalar.pystr "", PyScalar.pystr "a b"])]
      [("x", [(⟨"", true⟩ : Pattern), (⟨"a b", false⟩ : Pattern)])] rfl⟩

theorem C3_comma_join_witness :
    classify_text (PyScalar.pystr "hi") []
        = Except.ok (String.intercalate "," (hitLabels "hi" []))
    ∧ String.intercalate "," ([] : List String) = ""
    ∧ (compile_patterns [("a", [PyScalar.pystr "now"]), ("b", [PyScalar.pystr "today"])]).bind
        (fun c => classify_text (PyScalar.pystr "order now, today only") c) = Except.ok "a,b" :=
  C3_comma_join "hi" []

theorem C4_null_is_empty_witness :
    classify_text PyScalar.pynull [("x", [(⟨"hi", true⟩ : Pattern)])] = Except.ok "" :=
  C4_null_is_empty [("x", [(⟨"hi", true⟩ : Pattern)])]

theorem C5_amended_witness :
    compile_patterns [("urgency", [PyScalar.pystr "act now"])]
      = Except.ok [("urgency",
          [(⟨"act now", !("act now".data.any (fun c => c == ' '))⟩ : Pattern)])] :=
  C5_amended "urgency" "act now"

theorem C7_amended_witness :
    (compile_patterns [("x", [PyScalar.pystr ""])]).bind
        (fun c => classify_text (PyScalar.pystr "hey") c)
      = Except.ok (if (lowerData "hey").any isWordChar then "x" else "") :=
  C7_amended "hey"
